import Mathlib

/-!
Shallow embedding of the incident-servicenow-sync bridge.

The definitions below are translated from the JavaScript source of the
repository: the forward-sync `IncidentHandler` (PRODUCTION-SETUP.md,
appended module), the declarative `FieldMapper` (src/field-mapper.js),
the `ReverseSyncHandler` (src/reverse-sync-handler.js) and the webhook
routing in `App` (src/app.js).  JavaScript objects and Maps are embedded
as association lists with JS insertion-order semantics, timestamps as
natural-number milliseconds, and JS truthiness is made explicit.
-/

namespace SyncBridge

/-- Association-list lookup: first entry with the given key, mirroring
JS `Map.get` / object property access (`undefined` becomes `none`). -/
def getKey {α : Type} : List (String × α) → String → Option α
  | [], _ => none
  | (k', v) :: rest, k => if k' = k then some v else getKey rest k

/-- Association-list insertion mirroring JS `Map.set` / property write:
an existing key is updated in place (keeping its position), a new key is
appended at the end. -/
def setKey {α : Type} : List (String × α) → String → α → List (String × α)
  | [], k, v => [(k, v)]
  | (k', v') :: rest, k, v =>
      if k' = k then (k, v) :: rest else (k', v') :: setKey rest k v

/-- Association-list deletion mirroring JS `Map.delete` / `delete obj[k]`
on a map whose keys are unique: removes the first entry with the key. -/
def delKey {α : Type} : List (String × α) → String → List (String × α)
  | [], _ => []
  | (k', v') :: rest, k =>
      if k' = k then rest else (k', v') :: delKey rest k

/-- Key-uniqueness invariant of a JS `Map` / object embedded as an
association list. -/
def keysNodup {α : Type} (m : List (String × α)) : Prop :=
  m.Pairwise (fun a b => a.1 ≠ b.1)

theorem getKey_setKey_self {α : Type} (m : List (String × α)) (k : String) (v : α) :
    getKey (setKey m k v) k = some v := by
  induction m with
  | nil => simp [setKey, getKey]
  | cons hd tl ih =>
      obtain ⟨k', v'⟩ := hd
      by_cases h : k' = k
      · simp [setKey, h, getKey]
      · simp [setKey, h, getKey, ih]

theorem mem_setKey {α : Type} (m : List (String × α)) (k : String) (v : α)
    (x : String × α) (hx : x ∈ setKey m k v) : x.1 = k ∨ x ∈ m := by
  induction m with
  | nil => simp [setKey] at hx; simp [hx]
  | cons hd tl ih =>
      obtain ⟨k', v'⟩ := hd
      by_cases h : k' = k
      · subst h
        simp [setKey] at hx
        rcases hx with hx | hx
        · left; simp [hx]
        · right; simp [hx]
      · simp [setKey, h] at hx
        rcases hx with hx | hx
        · right; simp [hx]
        · rcases ih hx with hc | hc
          · left; exact hc
          · right; simp [hc]

theorem keysNodup_setKey {α : Type} (m : List (String × α)) (k : String) (v : α)
    (hnd : keysNodup m) : keysNodup (setKey m k v) := by
  induction m with
  | nil => simp [setKey, keysNodup]
  | cons hd tl ih =>
      obtain ⟨k', v'⟩ := hd
      rw [keysNodup, List.pairwise_cons] at hnd
      by_cases h : k' = k
      · subst h
        rw [setKey, if_pos rfl, keysNodup, List.pairwise_cons]
        exact hnd
      · rw [setKey, if_neg h, keysNodup, List.pairwise_cons]
        refine ⟨fun x hx => ?_, ih hnd.2⟩
        rcases mem_setKey tl k v x hx with hc | hc
        · simpa [hc] using h
        · exact hnd.1 x hc

theorem keysNodup_filter {α : Type} (m : List (String × α)) (p : String × α → Bool)
    (hnd : keysNodup m) : keysNodup (m.filter p) :=
  List.Pairwise.filter p hnd

theorem getKey_eq_none_of_forall {α : Type} (m : List (String × α)) (k : String)
    (h : ∀ x ∈ m, x.1 ≠ k) : getKey m k = none := by
  induction m with
  | nil => rfl
  | cons hd tl ih =>
      obtain ⟨k', v'⟩ := hd
      have hk' : k' ≠ k := h (k', v') (by simp)
      rw [getKey, if_neg hk']
      exact ih fun x hx => h x (by simp [hx])

theorem getKey_delKey_self {α : Type} (m : List (String × α)) (k : String)
    (hnd : keysNodup m) : getKey (delKey m k) k = none := by
  induction m with
  | nil => rfl
  | cons hd tl ih =>
      obtain ⟨k', v'⟩ := hd
      rw [keysNodup, List.pairwise_cons] at hnd
      by_cases h : k' = k
      · subst h
        rw [delKey, if_pos rfl]
        exact getKey_eq_none_of_forall tl k' fun x hx => fun he => hnd.1 x hx he.symm
      · rw [delKey, if_neg h, getKey, if_neg h]
        exact ih hnd.2

theorem getKey_filter_of_getKey {α : Type} (m : List (String × α)) (k : String) (v : α)
    (p : String × α → Bool) (hget : getKey m k = some v) (hp : p (k, v) = true) :
    getKey (m.filter p) k = some v := by
  induction m with
  | nil => simp [getKey] at hget
  | cons hd tl ih =>
      obtain ⟨k', v'⟩ := hd
      by_cases h : k' = k
      · subst h
        rw [getKey, if_pos rfl] at hget
        obtain rfl : v' = v := by injection hget
        rw [List.filter_cons, if_pos hp, getKey, if_pos rfl]
      · rw [getKey, if_neg h] at hget
        rw [List.filter_cons]
        by_cases hph : p (k', v') = true
        · rw [if_pos hph, getKey, if_neg h]
          exact ih hget
        · rw [if_neg hph]
          exact ih hget

/-! ## Loop Guard (IncidentHandler cooldown state)

Translated from the `IncidentHandler` class: `trackReverseSyncUpdate`
and `shouldSkipForwardSync`.  `recentReverseSyncUpdates` is a JS `Map`
from incident id to the `Date.now()` millisecond timestamp of the most
recent reverse-sync write; `processingIncidents` is the JS `Set` used as
the forward-sync processing lock. -/

/-- Cooldown window of the loop guard: `30 * 1000` ms in
`shouldSkipForwardSync`. -/
def cooldownPeriodMs : Int := 30 * 1000

/-- Retention horizon pruned in `trackReverseSyncUpdate`:
`5 * 60 * 1000` ms. -/
def retentionHorizonMs : Int := 5 * 60 * 1000

/-- Mutable state of the forward-sync `IncidentHandler`. -/
structure HandlerState where
  processingIncidents : List String
  recentReverseSyncUpdates : List (String × Nat)
deriving Repr, DecidableEq

/-- `IncidentHandler.trackReverseSyncUpdate`: stores `Date.now()` for the
incident id, then deletes every entry older than five minutes. -/
def trackReverseSyncUpdate (st : HandlerState) (incidentId : String) (now : Nat) :
    HandlerState :=
  let updated := setKey st.recentReverseSyncUpdates incidentId now
  let fiveMinutesAgo : Int := (now : Int) - retentionHorizonMs
  { st with recentReverseSyncUpdates :=
      updated.filter (fun e => !(decide ((e.2 : Int) < fiveMinutesAgo))) }

/-- `IncidentHandler.shouldSkipForwardSync`: if a reverse-sync timestamp
is recorded for the id and is younger than the 30-second cooldown,
return `true`; an entry at or past the cooldown is deleted and the check
returns `false`.  Returns the check result together with the (possibly
pruned) state. -/
def shouldSkipForwardSync (st : HandlerState) (incidentId : String) (now : Nat) :
    Bool × HandlerState :=
  match getKey st.recentReverseSyncUpdates incidentId with
  | some recentUpdate =>
      let timeSinceUpdate : Int := (now : Int) - (recentUpdate : Int)
      if timeSinceUpdate < cooldownPeriodMs then (true, st)
      else
        let pruned := delKey st.recentReverseSyncUpdates incidentId
        (false, { st with recentReverseSyncUpdates := pruned })
  | none => (false, st)

theorem trackReverseSyncUpdate_getKey_self (st : HandlerState) (x : String) (t : Nat) :
    getKey (trackReverseSyncUpdate st x t).recentReverseSyncUpdates x = some t := by
  refine getKey_filter_of_getKey _ _ _ _ (getKey_setKey_self _ _ _) ?_
  simp [retentionHorizonMs]

theorem trackReverseSyncUpdate_keysNodup (st : HandlerState) (x : String) (t : Nat)
    (hnd : keysNodup st.recentReverseSyncUpdates) :
    keysNodup (trackReverseSyncUpdate st x t).recentReverseSyncUpdates :=
  keysNodup_filter _ _ (keysNodup_setKey _ _ _ hnd)

/-- C1: after a reverse sync records a Loop Guard entry for incident `x`
at time `t`, `shouldSkipForwardSync x` returns `true` (suppressing the
forward sync) at every time strictly before `t + 30000` ms, and at every
time at or after `t + 30000` ms it returns `false` and deletes the
expired entry for `x` from the map. -/
theorem c1_loop_guard_cooldown (st : HandlerState) (x : String) (t : Nat)
    (hnd : keysNodup st.recentReverseSyncUpdates) :
    (∀ now : Nat, now < t + 30000 →
        shouldSkipForwardSync (trackReverseSyncUpdate st x t) x now =
          (true, trackReverseSyncUpdate st x t)) ∧
    (∀ now : Nat, t + 30000 ≤ now →
        (shouldSkipForwardSync (trackReverseSyncUpdate st x t) x now).1 = false ∧
        getKey (shouldSkipForwardSync (trackReverseSyncUpdate st x t) x
            now).2.recentReverseSyncUpdates x = none) := by
  have hget := trackReverseSyncUpdate_getKey_self st x t
  constructor
  · intro now hnow
    rw [shouldSkipForwardSync, hget]
    have hc : (now : Int) - (t : Int) < cooldownPeriodMs := by
      rw [cooldownPeriodMs]; omega
    simp only [hc, if_pos]
  · intro now hnow
    have hc : ¬((now : Int) - (t : Int) < cooldownPeriodMs) := by
      rw [cooldownPeriodMs]; push_neg; omega
    simp only [shouldSkipForwardSync, hget]
    rw [if_neg hc]
    exact ⟨rfl, getKey_delKey_self _ _ (trackReverseSyncUpdate_keysNodup st x t hnd)⟩

/-- C1 witness: with an initially empty Loop Guard and a reverse sync
recorded for "INC-1" at t = 1000 ms, a forward sync at t + 10 s is
suppressed and one at t + 31 s proceeds with the entry removed. -/
theorem c1_loop_guard_cooldown_witness :
    shouldSkipForwardSync (trackReverseSyncUpdate ⟨[], []⟩ "INC-1" 1000) "INC-1" 11000 =
      (true, trackReverseSyncUpdate ⟨[], []⟩ "INC-1" 1000) ∧
    (shouldSkipForwardSync (trackReverseSyncUpdate ⟨[], []⟩ "INC-1" 1000) "INC-1" 32000).1 =
      false ∧
    getKey (shouldSkipForwardSync (trackReverseSyncUpdate ⟨[], []⟩ "INC-1" 1000) "INC-1"
        32000).2.recentReverseSyncUpdates "INC-1" = none := by
  have h := c1_loop_guard_cooldown ⟨[], []⟩ "INC-1" 1000 (by simp [keysNodup])
  exact ⟨h.1 11000 (by omega), h.2 32000 (by omega)⟩

/-! ## JSON values and JS semantics helpers

JavaScript values flowing through the mapper are embedded as a `Json`
inductive; `none : Option Json` stands for JS `undefined` / an absent
value, and `Json.null` for JS `null`. -/

/-- JSON-like JavaScript value. -/
inductive Json where
  | null : Json
  | str : String → Json
  | num : Int → Json
  | boolean : Bool → Json
  | obj : List (String × Json) → Json
  | arr : List Json → Json
deriving Repr

/-- JS truthiness of a value. -/
def Json.truthy : Json → Bool
  | .null => false
  | .str s => s != ""
  | .num n => n != 0
  | .boolean b => b
  | .obj _ => true
  | .arr _ => true

/-- Test for the JS `null` value (after `getSourceValue` normalisation,
also standing for `undefined`). -/
def Json.isNull : Json → Bool
  | .null => true
  | _ => false

/-- Test for the empty-string value. -/
def Json.isEmptyStr : Json → Bool
  | .str "" => true
  | _ => false

/-- JS truthiness of a possibly-undefined value. -/
def jsTruthy : Option Json → Bool
  | none => false
  | some v => v.truthy

/-- JS short-circuit `a || b`. -/
def jsOr (a b : Option Json) : Option Json :=
  if jsTruthy a then a else b

/-- JS `a || null` as used in `return mappedValue || null`. -/
def jsOrNull (a : Option Json) : Option Json :=
  if jsTruthy a then a else none

/-- JS `a || b` on an optional string configuration entry, as in
`mapping.lookup_field || 'name'`. -/
def jsOrStr (a : Option String) (b : String) : String :=
  match a with
  | some s => if s = "" then b else s
  | none => b

/-- Lower-casing of a string (JS `toLowerCase`, ASCII). -/
def lowerStr (s : String) : String := String.mk (s.data.map Char.toLower)

/-- Upper-casing of a string (JS `toUpperCase`, ASCII). -/
def upperStr (s : String) : String := String.mk (s.data.map Char.toUpper)

/-- Numeric value of a digit run. -/
def digitsValue (l : List Char) : Nat :=
  l.foldl (fun a c => a * 10 + (c.toNat - 48)) 0

/-- Split a character list on a separator (JS `String.split`). -/
def splitOnChar (c : Char) : List Char → List (List Char)
  | [] => [[]]
  | x :: xs =>
      let r := splitOnChar c xs
      if x = c then [] :: r
      else
        match r with
        | h :: t => (x :: h) :: t
        | [] => [[x]]

/-- Dot-path segmentation (JS `sourcePath.split('.')`). -/
def splitPath (s : String) : List String :=
  (splitOnChar '.' s.data).map String.mk

mutual

/-- JS `String(value)` coercion. -/
def Json.toJsString : Json → String
  | .null => "null"
  | .str s => s
  | .num n => toString n
  | .boolean b => cond b "true" "false"
  | .obj _ => "[object Object]"
  | .arr xs => Json.joinElems xs

/-- JS array-to-string: elements joined with commas, `null` rendered
empty. -/
def Json.joinElems : List Json → String
  | [] => ""
  | [x] => Json.elemString x
  | x :: xs => Json.elemString x ++ "," ++ Json.joinElems xs

/-- Stringification of one array element (`null` becomes empty). -/
def Json.elemString : Json → String
  | .null => ""
  | .str s => s
  | .num n => toString n
  | .boolean b => cond b "true" "false"
  | .obj _ => "[object Object]"
  | .arr xs => Json.joinElems xs

end

/-! ## FieldMapper (src/field-mapper.js)

The `vm`-based dynamic evaluation (condition expressions, `expression`
rules, custom mappings) and the ServiceNow lookup client are external
collaborators; they are embedded as an oracle environment `MapperEnv`.
Everything else (path resolution, skip/fallback/required logic, the
type dispatch, choice and text mappings, truncation, validation) is
translated directly. -/

/-- One guard/result pair of a `conditional` mapping rule (the JS keys
are `if` and `then`). -/
structure ConditionalCase where
  guard : String
  result : Json
deriving Repr

/-- Declarative field-mapping rule (one entry of `incident_creation` /
`incident_updates`).  `Option` fields are `none` when the key is absent
in the JSON configuration; the Booleans with defaults mirror the JS
truthiness tests (`mapping.skip_empty_strings !== false`,
`mapping.strict !== false`). -/
structure MappingRule where
  type : String
  source : Option String := none
  required : Bool := false
  fallback : Option Json := none
  max_length : Option Nat := none
  condition : Option String := none
  mappings : List (String × Json) := []
  transform : Option String := none
  skip_empty_strings : Bool := true
  strict : Bool := true
  lookup_field : Option String := none
  lookup_table : Option String := none
  expression : Option String := none
  conditions : Option (List ConditionalCase) := none
  elseValue : Option Json := none
deriving Repr

/-- Custom (calculated) mapping entry of `custom_mappings`. -/
structure CustomRule where
  expression : String
  depends_on : Option (List String) := none
deriving Repr

/-- Global validation rules of the mapping configuration. -/
structure ValidationRules where
  required_fields_creation : Option (List String) := none
  required_fields_update : Option (List String) := none
  max_field_lengths : List (String × Nat) := []
deriving Repr, DecidableEq

/-- The whole `field-mappings.json` configuration. -/
structure MappingsConfig where
  incident_creation : Option (List (String × MappingRule)) := none
  incident_updates : Option (List (String × MappingRule)) := none
  custom_mappings : Option (List (String × CustomRule)) := none
  validation_rules : Option ValidationRules := none
deriving Repr

/-- Oracle environment for the external collaborators of the mapper:
`vm` expression evaluation and the ServiceNow client's cached lookups.
A `.error` models a thrown exception / rejected promise; `none` models
a `null`/`undefined` result. -/
structure MapperEnv where
  evalCondition : String → Json → Bool
  lookupUser : Json → String → Except String (Option Json)
  lookupReference : String → Json → String → Except String (Option Json)
  evalExpression : String → Json → Json → Except String (Option Json)
  customEval : String → List (String × Json) → Json → Except String (Option Json)

/-- Parse trailing `[index]` array access of one path segment, as
matched by the JS regex on `key` in `getSourceValue` (greedy prefix,
then a non-empty digit run in brackets at the end). -/
def parseArrayAccess (key : String) : Option (String × Nat) :=
  match key.data.reverse with
  | ']' :: rest =>
      let digits := rest.takeWhile Char.isDigit
      if digits.isEmpty then none
      else
        match rest.drop digits.length with
        | '[' :: prefRev =>
            if prefRev.isEmpty then none
            else some (String.mk prefRev.reverse, digitsValue digits.reverse)
        | _ => none
  | _ => none

/-- JS `value?.[key]` property access. -/
def Json.access : Json → String → Option Json
  | .obj fields, k => getKey fields k
  | .arr xs, k =>
      if !k.data.isEmpty && k.data.all Char.isDigit then xs.get? (digitsValue k.data)
      else none
  | _, _ => none

/-- JS `value?.[i]` numeric access (objects see the decimal string). -/
def Json.index : Json → Nat → Option Json
  | .arr xs, i => xs.get? i
  | .obj fields, i => getKey fields (toString i)
  | _, _ => none

/-- Traversal loop of `FieldMapper.getSourceValue`: sequential key
traversal where any missing (or `null`) intermediate yields `null`. -/
def getSourceValueGo : List String → Json → Json
  | [], v => v
  | k :: ks, v =>
      let next : Option Json :=
        match parseArrayAccess k with
        | some (ak, i) => (v.access ak).bind (fun a => a.index i)
        | none => v.access k
      match next with
      | none => Json.null
      | some Json.null => Json.null
      | some v' => getSourceValueGo ks v'

/-- `FieldMapper.getSourceValue`: resolve a dot-path (with `key[index]`
array access) against the source record; a falsy path or any missing
step yields `null`. -/
def getSourceValue (sourcePath : Option String) (data : Json) : Json :=
  match sourcePath with
  | none => Json.null
  | some p => if p = "" then Json.null else getSourceValueGo (splitPath p) data

/-- JS `\w` word character (ASCII letters, digits, underscore). -/
def isWordChar (c : Char) : Bool :=
  ('a' ≤ c ∧ c ≤ 'z') ∨ ('A' ≤ c ∧ c ≤ 'Z') ∨ ('0' ≤ c ∧ c ≤ '9') ∨ c = '_'

/-- The `title` transform of `mapTextField`: every `\w\S*` run has its
first character upper-cased and the rest lower-cased. -/
def titleChars (l : List Char) : List Char :=
  match l with
  | [] => []
  | c :: rest =>
      if isWordChar c then
        (c.toUpper :: (rest.takeWhile (fun ch => !ch.isWhitespace)).map Char.toLower)
          ++ titleChars (rest.dropWhile (fun ch => !ch.isWhitespace))
      else c :: titleChars rest
termination_by l.length
decreasing_by
  · simp only [List.length_cons]
    exact Nat.lt_succ_of_le (List.dropWhile_suffix _).sublist.length_le
  · simp

/-- `FieldMapper.mapTextField`: empty strings are converted to `null`
(unless `skip_empty_strings` is explicitly `false`), other values are
coerced to text and optionally case-transformed. -/
def mapTextField (value : Json) (mapping : MappingRule) : Option Json :=
  if value.isEmptyStr && mapping.skip_empty_strings then none
  else
    let s := value.toJsString
    let s :=
      match mapping.transform with
      | some t =>
          if t = "" then s
          else
            match lowerStr t with
            | "uppercase" => upperStr s
            | "lowercase" => lowerStr s
            | "title" => String.mk (titleChars s.data)
            | _ => s
      | none => s
    some (Json.str s)

/-- `FieldMapper.mapChoiceField`: a falsy value returns
`fallback || null`; otherwise the lower-cased lookup is evaluated
first, then the exact lookup, then the fallback, combined with JS
`||`; a non-string truthy value throws (`toLowerCase` is not a
function). -/
def mapChoiceField (value : Json) (mapping : MappingRule) : Except String (Option Json) :=
  if ¬ value.truthy then .ok (jsOrNull mapping.fallback)
  else
    match value with
    | .str s =>
        let lowerValue := getKey mapping.mappings (lowerStr s)
        let exactValue := getKey mapping.mappings s
        let mappedValue := jsOr lowerValue (jsOr exactValue mapping.fallback)
        .ok (jsOrNull mappedValue)
    | _ => .error "value.toLowerCase is not a function"

/-- `FieldMapper.mapUserLookup`: falsy values yield `null`, otherwise
the cached client lookup is delegated to. -/
def mapUserLookup (value : Json) (mapping : MappingRule) (env : MapperEnv) :
    Except String (Option Json) :=
  if ¬ value.truthy then .ok none
  else env.lookupUser value (jsOrStr mapping.lookup_field "name")

/-- `FieldMapper.mapReferenceLookup`: requires `lookup_table`,
otherwise delegates to the cached client lookup. -/
def mapReferenceLookup (value : Json) (mapping : MappingRule) (env : MapperEnv) :
    Except String (Option Json) :=
  if ¬ value.truthy then .ok none
  else
    match jsOrStr mapping.lookup_table "" with
    | "" => .error "lookup_table is required for reference_lookup type"
    | table => env.lookupReference table value (jsOrStr mapping.lookup_field "name")

/-- `FieldMapper.mapExpressionField`: requires `expression`; evaluation
failures are rethrown with a prefixed message. -/
def mapExpressionField (value : Json) (mapping : MappingRule) (incidentData : Json)
    (env : MapperEnv) : Except String (Option Json) :=
  match jsOrStr mapping.expression "" with
  | "" => .error "expression is required for expression type"
  | e =>
      match env.evalExpression e value incidentData with
      | .ok r => .ok r
      | .error msg => .error ("Expression evaluation failed: " ++ msg)

/-- `FieldMapper.mapConditionalField`: first guard that evaluates true
wins; otherwise `mapping.else || mapping.fallback || null` (the JS
`else` key is embedded as the rule field `elseValue`). -/
def mapConditionalField (value : Json) (mapping : MappingRule)
    (incidentData : Json) (env : MapperEnv) : Except String (Option Json) :=
  match mapping.conditions with
  | none => .error "conditions array is required for conditional type"
  | some cases =>
      match cases.find? (fun c => env.evalCondition c.guard incidentData) with
      | some c => .ok (some c.result)
      | none => .ok (jsOrNull (jsOr mapping.elseValue mapping.fallback))

/-- Type dispatch of `FieldMapper.applyFieldMapping`; an unknown type
throws. -/
def applyFieldMapping (fieldName : String) (mapping : MappingRule) (sourceValue : Json)
    (env : MapperEnv) (incidentData : Json) : Except String (Option Json) :=
  match mapping.type with
  | "text" => .ok (mapTextField sourceValue mapping)
  | "user_lookup" => mapUserLookup sourceValue mapping env
  | "reference_lookup" => mapReferenceLookup sourceValue mapping env
  | "choice_mapping" => mapChoiceField sourceValue mapping
  | "expression" => mapExpressionField sourceValue mapping incidentData env
  | "conditional" => mapConditionalField sourceValue mapping incidentData env
  | t => .error ("Unknown mapping type: " ++ t)

/-- Skip test of the `applyMappings` loop: for the `work_notes` field
only `null`/`undefined` skips, for every other field the empty string
also skips. -/
def shouldSkipField (fieldName : String) (sourceValue : Json) : Bool :=
  let isWorkNotes := fieldName == "work_notes"
  if isWorkNotes then sourceValue.isNull
  else sourceValue.isNull || sourceValue.isEmptyStr

/-- Missing-source branch of the `applyMappings` loop: a required rule
records an error; otherwise a configured fallback (a present `fallback`
key, even a `null` one) is placed; otherwise the field is skipped. -/
def handleMissingSource (fieldName : String) (mapping : MappingRule)
    (result : List (String × Json)) (errors : List String) :
    List (String × Json) × List String :=
  if mapping.required then
    (result, errors ++ ["Required field " ++ fieldName ++ " has no source value"])
  else
    match mapping.fallback with
    | some fb => (setKey result fieldName fb, errors)
    | none => (result, errors)

/-- Value branch of the `applyMappings` loop: dispatch by type, truncate
over-long strings to `max_length`, place the fallback when the mapped
value is `null`/`undefined`, and on a thrown error record it and place
the fallback when configured. -/
def handleMappedValue (fieldName : String) (mapping : MappingRule) (sourceValue : Json)
    (env : MapperEnv) (incidentData : Json)
    (result : List (String × Json)) (errors : List String) :
    List (String × Json) × List String :=
  match applyFieldMapping fieldName mapping sourceValue env incidentData with
  | .ok mappedValue =>
      match mappedValue with
      | some mv =>
          let final :=
            match mapping.max_length, mv with
            | some ml, .str s =>
                if ml ≠ 0 ∧ s.length > ml then Json.str (String.mk (s.data.take ml)) else mv
            | _, _ => mv
          (setKey result fieldName final, errors)
      | none =>
          match mapping.fallback with
          | some fb => (setKey result fieldName fb, errors)
          | none => (result, errors)
  | .error msg =>
      let errors' := errors ++ ["Field " ++ fieldName ++ ": " ++ msg]
      match mapping.fallback with
      | some fb => (setKey result fieldName fb, errors')
      | none => (result, errors')

/-- Body of the `applyMappings` loop for one rule, after its condition
has been checked, with the source value already resolved. -/
def processRuleWith (fieldName : String) (mapping : MappingRule) (sourceValue : Json)
    (env : MapperEnv) (incidentData : Json)
    (result : List (String × Json)) (errors : List String) :
    List (String × Json) × List String :=
  if shouldSkipField fieldName sourceValue then
    handleMissingSource fieldName mapping result errors
  else
    handleMappedValue fieldName mapping sourceValue env incidentData result errors

/-- Condition gate of the loop: `evaluateCondition` returns `true` for
a falsy condition and otherwise delegates to the `vm` oracle. -/
def evaluateCondition (condition : Option String) (data : Json) (env : MapperEnv) : Bool :=
  match condition with
  | none => true
  | some c => if c = "" then true else env.evalCondition c data

/-- The per-rule loop of `FieldMapper.applyMappings` over the ordered
rule entries. -/
def applyMappingsLoop (mappings : List (String × MappingRule)) (incidentData : Json)
    (env : MapperEnv) : List (String × Json) × List String :=
  mappings.foldl
    (fun acc fm =>
      if ¬ evaluateCondition fm.2.condition incidentData env then acc
      else
        processRuleWith fm.1 fm.2 (getSourceValue fm.2.source incidentData) env
          incidentData acc.1 acc.2)
    ([], [])

/-- `FieldMapper.applyCustomMappings`: calculated fields reading the
already-produced result dictionary; skipped when a declared dependency
is absent; evaluation failures leave the result unchanged. -/
def applyCustomMappings (customMappings : List (String × CustomRule))
    (result : List (String × Json)) (incidentData : Json) (env : MapperEnv) :
    List (String × Json) :=
  customMappings.foldl
    (fun res cm =>
      let deps := (cm.2.depends_on).getD []
      if ¬ deps.all (fun d => (getKey res d).isSome) then res
      else
        match env.customEval cm.2.expression res incidentData with
        | .ok (some v) => if v.isNull then res else setKey res cm.1 v
        | .ok none => res
        | .error _ => res)
    result

/-- `FieldMapper.validateRequiredFields`: appends an error for every
creation-required field that is missing, `null` or empty in the final
dictionary (length limits only log). -/
def fmValidateRequiredFields (validationRules : Option ValidationRules)
    (result : List (String × Json)) (errors : List String) : List String :=
  match validationRules with
  | none => errors
  | some vr =>
      match vr.required_fields_creation with
      | none => errors
      | some fields =>
          errors ++
            (fields.filter (fun f =>
                match getKey result f with
                | none => true
                | some v => v.isNull || v.isEmptyStr)).map
              (fun f => "Required field " ++ f ++ " is missing or empty")

/-- `FieldMapper.applyMappings`: the rule loop, then custom mappings,
then global validation.  The JS method returns only the result
dictionary (errors are logged); the internal `errors` array is returned
alongside for verification. -/
def applyMappings (cfg : MappingsConfig) (mappings : List (String × MappingRule))
    (incidentData : Json) (env : MapperEnv) : List (String × Json) × List String :=
  let step := applyMappingsLoop mappings incidentData env
  let result :=
    match cfg.custom_mappings with
    | some cms => applyCustomMappings cms step.1 incidentData env
    | none => step.1
  (result, fmValidateRequiredFields cfg.validation_rules result step.2)

/-- `FieldMapper.mapForCreation`: empty dictionary when no creation
mappings are configured. -/
def mapForCreation (cfg : MappingsConfig) (incidentData : Json) (env : MapperEnv) :
    List (String × Json) :=
  match cfg.incident_creation with
  | none => []
  | some m => (applyMappings cfg m incidentData env).1

/-- `FieldMapper.mapForUpdate`: empty dictionary when no update
mappings are configured (the `existingRecord` argument is accepted and
never read by any mapping type, as in the source). -/
def mapForUpdate (cfg : MappingsConfig) (incidentData : Json) (env : MapperEnv)
    (existingRecord : Option Json) : List (String × Json) :=
  match cfg.incident_updates with
  | none => []
  | some m => (applyMappings cfg m incidentData env).1

/-! ## Claims about the FieldMapper -/

/-- Oracle environment whose external collaborators always come back
empty; used to instantiate claims whose scenarios never reach the
oracles. -/
def envNone : MapperEnv where
  evalCondition := fun _ _ => false
  lookupUser := fun _ _ => .ok none
  lookupReference := fun _ _ _ => .ok none
  evalExpression := fun _ _ _ => .ok none
  customEval := fun _ _ _ => .ok none

/-- Choice rule whose dictionary holds both the exact key "Hello" and
the lower-cased key "hello", with different outputs. -/
def c4Rule : MappingRule :=
  { type := "choice_mapping"
    source := some "incident.severity.name"
    mappings := [("hello", Json.str "LOW"), ("Hello", Json.str "HIGH")] }

/-- C4 counterexample: the claim says the case-sensitive exact match is
tried first, so the input "Hello" — present exactly with output "HIGH"
— should map to "HIGH"; the code consults the lower-cased entry first
and returns "LOW". -/
theorem c4_counterexample :
    getKey c4Rule.mappings "Hello" = some (Json.str "HIGH") ∧
    mapChoiceField (Json.str "Hello") c4Rule = .ok (some (Json.str "LOW")) ∧
    Json.str "LOW" ≠ Json.str "HIGH" := by
  refine ⟨rfl, rfl, ?_⟩
  intro h
  injection h with h'
  exact absurd h' (by decide)

/-- C4 (amended): for every `choice_mapping` rule and non-empty string
source value, the case-insensitive (lower-cased) lookup is tried first;
the case-sensitive exact match is consulted only when the lower-cased
lookup yields nothing truthy; an input with a truthy lower-cased entry
maps deterministically to that entry; an input present in neither form
yields the rule's fallback when that is truthy, and null otherwise. -/
theorem c4_choice_lookup_order (rule : MappingRule) (s : String) (hs : s ≠ "") :
    (jsTruthy (getKey rule.mappings (lowerStr s)) = true →
      mapChoiceField (Json.str s) rule = .ok (getKey rule.mappings (lowerStr s))) ∧
    (jsTruthy (getKey rule.mappings (lowerStr s)) = false →
      jsTruthy (getKey rule.mappings s) = true →
      mapChoiceField (Json.str s) rule = .ok (getKey rule.mappings s)) ∧
    (jsTruthy (getKey rule.mappings (lowerStr s)) = false →
      jsTruthy (getKey rule.mappings s) = false →
      mapChoiceField (Json.str s) rule = .ok (jsOrNull rule.fallback)) := by
  have htr : (Json.str s).truthy = true := by simp [Json.truthy, hs]
  refine ⟨fun h1 => ?_, fun h1 h2 => ?_, fun h1 h2 => ?_⟩
  · simp [mapChoiceField, htr, jsOr, h1, jsOrNull]
  · simp [mapChoiceField, htr, jsOr, h1, h2, jsOrNull]
  · simp [mapChoiceField, htr, jsOr, h1, h2, jsOrNull]

/-- C4 witness: "Hello" with a truthy lower-cased entry maps to that
entry. -/
theorem c4_choice_lookup_order_witness :
    mapChoiceField (Json.str "Hello") c4Rule = .ok (getKey c4Rule.mappings (lowerStr "Hello")) :=
  (c4_choice_lookup_order c4Rule "Hello" (by decide)).1 (by rfl)

/-- Required text rule with a configured fallback. -/
def c5Rule : MappingRule :=
  { type := "text"
    source := some "incident.name"
    required := true
    fallback := some (Json.str "FALLBACK") }

/-- Configuration holding only the C5 rule as an update mapping. -/
def c5Config : MappingsConfig :=
  { incident_updates := some [("short_description", c5Rule)] }

/-- C5 counterexample: a required rule with a configured fallback whose
source resolves to no value records a field-level error and leaves the
field out of the result — the fallback is NOT placed first as the claim
states. -/
theorem c5_counterexample :
    applyMappings c5Config [("short_description", c5Rule)] (Json.obj []) envNone =
      ([], ["Required field short_description has no source value"]) ∧
    c5Rule.required = true ∧ c5Rule.fallback = some (Json.str "FALLBACK") :=
  ⟨rfl, rfl, rfl⟩

/-- C5 (amended): when a rule's source path resolves to no value the
`required` flag is checked first: a required rule records a field-level
error and never applies its fallback, even when one is configured; only
a non-required rule applies its configured fallback (without recording
an error); a non-required rule without fallback is skipped. -/
theorem c5_missing_source_order (fieldName : String) (mapping : MappingRule)
    (env : MapperEnv) (data : Json) (result : List (String × Json))
    (errors : List String) :
    (mapping.required = true →
      processRuleWith fieldName mapping Json.null env data result errors =
        (result, errors ++ ["Required field " ++ fieldName ++ " has no source value"])) ∧
    (∀ fb, mapping.required = false → mapping.fallback = some fb →
      processRuleWith fieldName mapping Json.null env data result errors =
        (setKey result fieldName fb, errors)) ∧
    (mapping.required = false → mapping.fallback = none →
      processRuleWith fieldName mapping Json.null env data result errors =
        (result, errors)) := by
  have hskip : shouldSkipField fieldName Json.null = true := by
    simp [shouldSkipField, Json.isNull]
  refine ⟨fun h => ?_, fun fb h hf => ?_, fun h hf => ?_⟩
  · simp [processRuleWith, hskip, handleMissingSource, h]
  · simp [processRuleWith, hskip, handleMissingSource, h, hf]
  · simp [processRuleWith, hskip, handleMissingSource, h, hf]

/-- C5 witness: the required-with-fallback case at a concrete rule. -/
theorem c5_missing_source_order_witness :
    processRuleWith "short_description" c5Rule Json.null envNone (Json.obj []) [] [] =
      ([], ["Required field short_description has no source value"]) :=
  (c5_missing_source_order "short_description" c5Rule envNone (Json.obj []) [] []).1 rfl

/-- Text rule used to instantiate the C10 witness. -/
def c10Rule : MappingRule :=
  { type := "text", source := some "incident.name", fallback := some (Json.str "FB") }

/-- C10: an empty-string source value is treated exactly like a missing
value for every destination field other than `work_notes` (processing
the rule with `""` is identical to processing it with no value), the
skip test for `work_notes` holds only for `null`/`undefined`, and an
empty-string `work_notes` value is passed on to the type-specific
mapping step. -/
theorem c10_empty_string_handling :
    (∀ fieldName mapping env data result errors, fieldName ≠ "work_notes" →
      processRuleWith fieldName mapping (Json.str "") env data result errors =
        processRuleWith fieldName mapping Json.null env data result errors) ∧
    (∀ v : Json, shouldSkipField "work_notes" v = v.isNull) ∧
    (∀ mapping env data result errors,
      processRuleWith "work_notes" mapping (Json.str "") env data result errors =
        handleMappedValue "work_notes" mapping (Json.str "") env data result errors) := by
  refine ⟨?_, ?_, ?_⟩
  · intro f m env d r e hf
    have h1 : shouldSkipField f (Json.str "") = true := by
      simp [shouldSkipField, Json.isNull, Json.isEmptyStr, hf]
    have h2 : shouldSkipField f Json.null = true := by
      simp [shouldSkipField, Json.isNull]
    simp [processRuleWith, h1, h2]
  · intro v
    simp [shouldSkipField]
  · intro m env d r e
    simp [processRuleWith, shouldSkipField, Json.isNull, Json.isEmptyStr]

/-- C10 witness: for the non-work_notes field "state", the empty string
and the missing value process identically (both fall back). -/
theorem c10_empty_string_handling_witness :
    processRuleWith "state" c10Rule (Json.str "") envNone (Json.obj []) [] [] =
      processRuleWith "state" c10Rule Json.null envNone (Json.obj []) [] [] ∧
    processRuleWith "state" c10Rule (Json.str "") envNone (Json.obj []) [] [] =
      ([("state", Json.str "FB")], []) :=
  ⟨c10_empty_string_handling.1 "state" c10Rule envNone (Json.obj []) [] [] (by decide), rfl⟩

/-! ## ReverseSyncHandler (src/reverse-sync-handler.js)

Hand-coded ServiceNow → incident.io update mapping.  ServiceNow field
values arrive as strings; an absent/falsy field is the empty string.
The two client fetches at the start of `handleServiceNowUpdate` are
oracles. -/

/-- Trimming of surrounding whitespace (JS `String.trim`). -/
def trimStr (s : String) : String :=
  String.mk (((s.data.dropWhile Char.isWhitespace).reverse.dropWhile
    Char.isWhitespace).reverse)

/-- JS truthiness of a possibly-undefined string. -/
def strTruthy : Option String → Bool
  | none => false
  | some s => s != ""

/-- `ReverseSyncHandler.extractNewWorkNotes`: a falsy new-notes value
yields `null`; a falsy previous value yields the whole new-notes text;
otherwise, when the text grew, the prefix of the length difference is
returned trimmed, and `null` when it did not grow. -/
def extractNewWorkNotes (fullWorkNotes oldWorkNotes : Option String) : Option String :=
  if ¬ strTruthy fullWorkNotes then none
  else
    let full := fullWorkNotes.getD ""
    if ¬ strTruthy oldWorkNotes then some full
    else
      let old := oldWorkNotes.getD ""
      let newNotesLength : Int := (full.length : Int) - (old.length : Int)
      if newNotesLength > 0 then
        some (trimStr (String.mk (full.data.take (full.length - old.length))))
      else none

/-- C6: when the new notes text is strictly longer than the previous
text, the extracted delta is the prefix of the new text of length
(new length − old length), trimmed of surrounding whitespace; when it
is not longer, no delta is produced (never the full history); when the
previous value is absent, all of the new text is the delta. -/
theorem c6_work_note_delta (full old : String) (hf : full ≠ "") (ho : old ≠ "") :
    (full.length > old.length →
      extractNewWorkNotes (some full) (some old) =
        some (trimStr (String.mk (full.data.take (full.length - old.length))))) ∧
    (full.length ≤ old.length → extractNewWorkNotes (some full) (some old) = none) ∧
    extractNewWorkNotes (some full) none = some full := by
  refine ⟨fun hgt => ?_, fun hle => ?_, ?_⟩
  · have h : ((full.length : Int) - (old.length : Int) > 0) := by omega
    simp [extractNewWorkNotes, strTruthy, hf, ho, h]
  · have h : ¬((full.length : Int) - (old.length : Int) > 0) := by omega
    simp [extractNewWorkNotes, strTruthy, hf, ho, h]
  · simp [extractNewWorkNotes, strTruthy, hf]

/-- C6 witness: for previous notes "A" and new notes "BA" the delta is
"B"; for unchanged notes there is no delta. -/
theorem c6_work_note_delta_witness :
    extractNewWorkNotes (some "BA") (some "A") = some "B" ∧
    extractNewWorkNotes (some "A") (some "A") = none := by
  have h := c6_work_note_delta "BA" "A" (by decide) (by decide)
  have h2 := c6_work_note_delta "A" "A" (by decide) (by decide)
  exact ⟨(h.1 (by decide)).trans rfl, h2.2.1 (by decide)⟩

/-- Feature toggles of the configuration (`config.features`). -/
structure FeaturesConfig where
  sync_status : Bool := false
  sync_severity : Bool := false
  add_servicenow_link : Bool := false
  deduplicate_work_notes : Bool := false
  create_incidents : Bool := true
  update_incidents : Bool := true
deriving Repr, DecidableEq

/-- The `reverse_mappings` section of `field-mappings.json` as reached
through `this.fieldMapper?.mappingsConfig?.reverse_mappings`; `none`
stands for an absent table (also when the whole handler was constructed
without a field mapper, as in `src/app.js`). -/
structure ReverseMappings where
  status : Option (List (String × String)) := none
  severity : Option (List (String × String)) := none
deriving Repr, DecidableEq

/-- A fetched ServiceNow incident record (absent fields are the empty
string, which is falsy). -/
structure SNIncident where
  short_description : String := ""
  description : String := ""
  work_notes : String := ""
  incident_state : String := ""
  priority : String := ""
  urgency : String := ""
  impact : String := ""
deriving Repr, DecidableEq

/-- The hard-coded workflow-compliant status table of
`mapServiceNowStatusToIncidentIO` (ServiceNow `incident_state` →
incident.io status id). -/
def statusMappingDefault : List (String × String) :=
  [("1", "01JT3NNT3D4J0DDWS19MQYF0RC"),
   ("2", "01JT3NNT3D4J0DDWS19MQYF0RC"),
   ("3", "01JT3NNT3D455EB53SWJHK1QST"),
   ("6", "01JT3NNT3D73EK2RXFW4GJY310"),
   ("7", "01JT3NNT3D73EK2RXFW4GJY310"),
   ("8", "01JT3NNT3D73EK2RXFW4GJY310")]

/-- `ReverseSyncHandler.mapServiceNowStatusToIncidentIO`: a configured
`reverse_mappings.status` entry wins when truthy, otherwise the
hard-coded table decides; the result is the status id. -/
def mapServiceNowStatusToIncidentIo (reverse : ReverseMappings)
    (serviceNowState : String) : Option String :=
  match reverse.status with
  | some tbl =>
      match getKey tbl serviceNowState with
      | some statusId =>
          if statusId != "" then some statusId
          else getKey statusMappingDefault serviceNowState
      | none => getKey statusMappingDefault serviceNowState
  | none => getKey statusMappingDefault serviceNowState

/-- `ReverseSyncHandler.mapServiceNowPriorityToIncidentIO`: a truthy
configured `reverse_mappings.severity` entry is returned; otherwise the
code dereferences the identifier `defaultSeverityMapping`, which is
defined nowhere in the program, so evaluation throws a
`ReferenceError` (the `return null` branch below it is unreachable,
which is why `.ok none` is never produced). -/
def mapServiceNowPriorityToIncidentIo (reverse : ReverseMappings)
    (serviceNowPriority : String) : Except String (Option String) :=
  let configured : Option String :=
    match reverse.severity with
    | some tbl =>
        match getKey tbl serviceNowPriority with
        | some severityId => if severityId != "" then some severityId else none
        | none => none
    | none => none
  match configured with
  | some severityId => .ok (some severityId)
  | none => .error "ReferenceError: defaultSeverityMapping is not defined"

/-- JS `parseInt` on a ServiceNow numeric-code string: optional
whitespace and sign, then a digit run; `none` models `NaN`. -/
def parseIntJs (s : String) : Option Int :=
  let l := s.data.dropWhile Char.isWhitespace
  let signAndRest : Int × List Char :=
    match l with
    | '-' :: rest => (-1, rest)
    | '+' :: rest => (1, rest)
    | _ => (1, l)
  let digits := signAndRest.2.takeWhile Char.isDigit
  if digits.isEmpty then none
  else some (signAndRest.1 * (digitsValue digits : Int))

/-- `Math.min(parseInt(urgency), parseInt(impact)).toString()` with
`NaN` propagating to the string "NaN". -/
def jsMinPriority (urgency impact : String) : String :=
  match parseIntJs urgency, parseIntJs impact with
  | some a, some b => toString (min a b)
  | _, _ => "NaN"

/-- The update dictionary produced by `mapServiceNowToIncidentIO`
(field absent ↔ `none`). -/
structure IncidentIoUpdates where
  name : Option String := none
  summary : Option String := none
  add_update : Option String := none
  incident_status_id : Option String := none
  severity_id : Option String := none
deriving Repr, DecidableEq

/-- JS `Object.keys(updates).length === 0`. -/
def IncidentIoUpdates.isEmpty (u : IncidentIoUpdates) : Bool :=
  u.name.isNone && u.summary.isNone && u.add_update.isNone &&
    u.incident_status_id.isNone && u.severity_id.isNone

/-- `ReverseSyncHandler.mapServiceNowToIncidentIO`: builds the update
dictionary field by field; a thrown severity-mapping error rejects the
whole (async) call. -/
def mapServiceNowToIncidentIo (features : FeaturesConfig) (reverse : ReverseMappings)
    (serviceNowIncident : SNIncident) (updatedFields : List String)
    (oldValues : List (String × String)) : Except String IncidentIoUpdates :=
  let u0 : IncidentIoUpdates := {}
  let u1 :=
    if updatedFields.contains "short_description" &&
        serviceNowIncident.short_description != "" then
      { u0 with name := some serviceNowIncident.short_description }
    else u0
  let u2 :=
    if updatedFields.contains "description" && serviceNowIncident.description != "" then
      { u1 with summary := some serviceNowIncident.description }
    else u1
  let u3 :=
    if updatedFields.contains "work_notes" && serviceNowIncident.work_notes != "" then
      match extractNewWorkNotes (some serviceNowIncident.work_notes)
          (getKey oldValues "work_notes") with
      | some newWorkNotes =>
          if newWorkNotes != "" then
            { u2 with add_update := some ("ServiceNow Work Note: " ++ newWorkNotes) }
          else u2
      | none => u2
    else u2
  let u4 :=
    if features.sync_status && updatedFields.contains "incident_state" then
      match mapServiceNowStatusToIncidentIo reverse serviceNowIncident.incident_state with
      | some statusId => { u3 with incident_status_id := some statusId }
      | none => u3
    else u3
  if features.sync_severity &&
      (updatedFields.contains "urgency" || updatedFields.contains "impact" ||
        updatedFields.contains "priority") then
    let priorityValue :=
      if serviceNowIncident.priority != "" then serviceNowIncident.priority
      else
        if serviceNowIncident.urgency != "" && serviceNowIncident.impact != "" then
          jsMinPriority serviceNowIncident.urgency serviceNowIncident.impact
        else serviceNowIncident.priority
    if priorityValue != "" then
      match mapServiceNowPriorityToIncidentIo reverse priorityValue with
      | .error e => .error e
      | .ok (some severityId) => .ok { u4 with severity_id := some severityId }
      | .ok none => .ok u4
    else .ok u4
  else .ok u4

/-- Observable client operations of one reverse sync. -/
inductive RevEffect where
  | updateIncidentIo : String → RevEffect
  | addIncidentUpdate : String → String → RevEffect
  | trackLoopGuard : String → RevEffect
deriving Repr, DecidableEq

/-- Oracle world of the reverse handler: the cross-reference resolution
and the authoritative ServiceNow fetch. -/
structure ReverseWorld where
  getIncidentIOIdFromServiceNow : String → Except String (Option String)
  getIncidentBySysId : String → Except String (Option SNIncident)

/-- Basic (non-comment) part of the update dictionary is non-empty, as
tested by `applyIncidentIOUpdates` after deleting `add_update`. -/
def IncidentIoUpdates.hasBasic (u : IncidentIoUpdates) : Bool :=
  !(u.name.isNone && u.summary.isNone && u.incident_status_id.isNone &&
    u.severity_id.isNone)

/-- `ReverseSyncHandler.handleServiceNowUpdate`: duplicate-suppression
via `processingUpdates`, cross-reference resolution (absence skips
silently), authoritative re-fetch, mapping, and — when the dictionary
is non-empty — the client writes followed by the Loop Guard entry.
Returns the list of client operations performed; `.error` models the
rethrown exception. -/
def handleServiceNowUpdate (w : ReverseWorld) (processingUpdates : List String)
    (features : FeaturesConfig) (reverse : ReverseMappings) (sysId : String)
    (updatedFields : List String) (oldValues : List (String × String)) :
    Except String (List RevEffect) :=
  if processingUpdates.contains sysId then .ok []
  else
    match w.getIncidentIOIdFromServiceNow sysId with
    | .error e => .error e
    | .ok none => .ok []
    | .ok (some incidentIOId) =>
        match w.getIncidentBySysId sysId with
        | .error e => .error e
        | .ok none => .ok []
        | .ok (some serviceNowIncident) =>
            match mapServiceNowToIncidentIo features reverse serviceNowIncident
                updatedFields oldValues with
            | .error e => .error e
            | .ok updates =>
                if updates.isEmpty then .ok []
                else
                  let eff1 :=
                    if updates.hasBasic then [RevEffect.updateIncidentIo incidentIOId]
                    else []
                  let eff2 :=
                    match updates.add_update with
                    | some msg => [RevEffect.addIncidentUpdate incidentIOId msg]
                    | none => []
                  .ok (eff1 ++ eff2 ++ [RevEffect.trackLoopGuard incidentIOId])

/-- Absence of a truthy configured severity entry for the priority. -/
def hasTruthySeverityEntry (reverse : ReverseMappings) (p : String) : Bool :=
  match reverse.severity with
  | some tbl =>
      match getKey tbl p with
      | some severityId => severityId != ""
      | none => false
  | none => false

/-- C9: when severity sync is enabled and a changed priority has no
truthy entry in the configured `reverse_mappings.severity` table (or no
table is configured at all), `mapServiceNowPriorityToIncidentIO` does
not return null — it throws the `defaultSeverityMapping` ReferenceError
— and the whole `handleServiceNowUpdate` call for the record fails with
that error instead of omitting the severity field. -/
theorem c9_severity_reference_error :
    (∀ (reverse : ReverseMappings) (p : String),
      hasTruthySeverityEntry reverse p = false →
        mapServiceNowPriorityToIncidentIo reverse p =
          .error "ReferenceError: defaultSeverityMapping is not defined") ∧
    (∀ (w : ReverseWorld) (features : FeaturesConfig) (reverse : ReverseMappings)
        (sysId incidentIOId : String) (serviceNowIncident : SNIncident)
        (updatedFields : List String) (oldValues : List (String × String)),
      features.sync_severity = true →
      updatedFields.contains "priority" = true →
      serviceNowIncident.priority ≠ "" →
      hasTruthySeverityEntry reverse serviceNowIncident.priority = false →
      w.getIncidentIOIdFromServiceNow sysId = .ok (some incidentIOId) →
      w.getIncidentBySysId sysId = .ok (some serviceNowIncident) →
      handleServiceNowUpdate w [] features reverse sysId updatedFields oldValues =
        .error "ReferenceError: defaultSeverityMapping is not defined") := by
  have hmapPrio : ∀ (reverse : ReverseMappings) (p : String),
      hasTruthySeverityEntry reverse p = false →
        mapServiceNowPriorityToIncidentIo reverse p =
          .error "ReferenceError: defaultSeverityMapping is not defined" := by
    intro reverse p h
    rw [mapServiceNowPriorityToIncidentIo]
    rw [hasTruthySeverityEntry] at h
    rcases hs : reverse.severity with _ | tbl
    · simp [hs]
    · simp only [hs] at h ⊢
      rcases hg : getKey tbl p with _ | sid
      · simp [hg]
      · simp only [hg] at h ⊢
        simp [h]
  refine ⟨hmapPrio, ?_⟩
  intro w features reverse sysId incidentIOId serviceNowIncident updatedFields oldValues
    hsev hupd hprio htbl hid hrec
  have hp : (serviceNowIncident.priority != "") = true := by
    simpa using hprio
  have hmap : mapServiceNowToIncidentIo features reverse serviceNowIncident
      updatedFields oldValues =
        .error "ReferenceError: defaultSeverityMapping is not defined" := by
    rw [mapServiceNowToIncidentIo]
    simp only [hsev, hupd, hp, Bool.or_true, Bool.true_and, Bool.and_true, if_true,
      hmapPrio reverse serviceNowIncident.priority htbl]
  rw [handleServiceNowUpdate]
  simp [hid, hrec, hmap]

/-- World instantiating the C9 witness: a linked ServiceNow record with
priority "1". -/
def c9World : ReverseWorld where
  getIncidentIOIdFromServiceNow := fun _ => .ok (some "INC-42")
  getIncidentBySysId := fun _ => .ok (some { priority := "1" })

/-- C9 witness: with severity sync on, a changed priority "1" and no
configured severity table, the whole reverse sync fails with the
ReferenceError. -/
theorem c9_severity_reference_error_witness :
    handleServiceNowUpdate c9World [] { sync_severity := true } {} "sys1" ["priority"] [] =
      .error "ReferenceError: defaultSeverityMapping is not defined" :=
  c9_severity_reference_error.2 c9World { sync_severity := true } {} "sys1" "INC-42"
    { priority := "1" } ["priority"] [] rfl rfl (by decide) rfl rfl rfl

/-! ## The POST /webhook/servicenow route (src/app.js)

The route body after the optional signature verification: the table
filter, the operation filter, then the delegation to
`reverseSyncHandler.handleServiceNowUpdate`, answering 200 on success
or filtering and 500 on a thrown error. -/

/-- Parsed inbound ServiceNow webhook payload. -/
structure SNWebhookPayload where
  sys_id : String := ""
  table : String := ""
  operation : String := ""
  updated_fields : List String := []
  old_values : List (String × String) := []
deriving Repr, DecidableEq

/-- The `/webhook/servicenow` route: returns the HTTP status, the
client operations performed, and whether the reverse-sync handler was
invoked.  `configTable` is `config.servicenow.table` (`|| 'incident'`
applied as in the source). -/
def servicenowWebhookRoute (configTable : Option String) (w : ReverseWorld)
    (processingUpdates : List String) (features : FeaturesConfig)
    (reverse : ReverseMappings) (p : SNWebhookPayload) :
    Nat × List RevEffect × Bool :=
  if p.table ≠ jsOrStr configTable "incident" then (200, [], false)
  else if p.operation ≠ "update" then (200, [], false)
  else
    match handleServiceNowUpdate w processingUpdates features reverse p.sys_id
        p.updated_fields p.old_values with
    | .error _ => (500, [], true)
    | .ok effs => (200, effs, true)

/-- C8: the reverse-sync handler is invoked exactly when the payload's
table equals the configured incident table (default "incident") and its
operation equals "update"; every other payload is answered 200 with no
client operation performed. -/
theorem c8_webhook_filtering (configTable : Option String) (w : ReverseWorld)
    (processingUpdates : List String) (features : FeaturesConfig)
    (reverse : ReverseMappings) (p : SNWebhookPayload) :
    ((servicenowWebhookRoute configTable w processingUpdates features reverse p).2.2 = true ↔
      (p.table = jsOrStr configTable "incident" ∧ p.operation = "update")) ∧
    (¬(p.table = jsOrStr configTable "incident" ∧ p.operation = "update") →
      servicenowWebhookRoute configTable w processingUpdates features reverse p =
        (200, [], false)) := by
  by_cases ht : p.table = jsOrStr configTable "incident"
  · by_cases ho : p.operation = "update"
    · refine ⟨⟨fun _ => ⟨ht, ho⟩, fun _ => ?_⟩, fun hc => absurd ⟨ht, ho⟩ hc⟩
      rcases hh : handleServiceNowUpdate w processingUpdates features reverse p.sys_id
          p.updated_fields p.old_values with e | effs
      · simp [servicenowWebhookRoute, ht, ho, hh]
      · simp [servicenowWebhookRoute, ht, ho, hh]
    · refine ⟨⟨fun hinv => ?_, fun hok => absurd hok.2 ho⟩, fun _ => ?_⟩
      · exfalso
        simp [servicenowWebhookRoute, ht, ho] at hinv
      · simp [servicenowWebhookRoute, ht, ho]
  · refine ⟨⟨fun hinv => ?_, fun hok => absurd hok.1 ht⟩, fun _ => ?_⟩
    · exfalso
      simp [servicenowWebhookRoute, ht] at hinv
    · simp [servicenowWebhookRoute, ht]

/-- World with no linked record, instantiating the C8 witness. -/
def worldIdle : ReverseWorld where
  getIncidentIOIdFromServiceNow := fun _ => .ok none
  getIncidentBySysId := fun _ => .ok none

/-- C8 witness: a "problem"-table payload is acknowledged 200 with no
handler invocation and no client operation; an "incident"/"update"
payload reaches the handler. -/
theorem c8_webhook_filtering_witness :
    servicenowWebhookRoute none worldIdle [] {} {}
        { sys_id := "s1", table := "problem", operation := "update" } = (200, [], false) ∧
    (servicenowWebhookRoute none worldIdle [] {} {}
        { sys_id := "s1", table := "incident", operation := "update" }).2.2 = true := by
  have h1 := c8_webhook_filtering none worldIdle [] {} {}
    { sys_id := "s1", table := "problem", operation := "update" }
  have h2 := c8_webhook_filtering none worldIdle [] {} {}
    { sys_id := "s1", table := "incident", operation := "update" }
  exact ⟨h1.2 (by simp [jsOrStr]), h2.1.mpr ⟨rfl, rfl⟩⟩

/-! ## Forward sync: IncidentHandler createIncident / updateIncident

Translated from the `IncidentHandler` class.  The platform clients are
an oracle world; the performed client operations are recorded as an
effect trace.  The mutual `create → update → create` redirection is
resolved with a fuel parameter (two levels suffice for any fixed
world). -/

/-- A ServiceNow record as returned by the client. -/
structure SNRecord where
  sys_id : String
  number : String
deriving Repr, DecidableEq

/-- JS-object view of a ServiceNow record (as it would be handed to
`mapForUpdate` as `existingRecord`). -/
def SNRecord.toJson (r : SNRecord) : Json :=
  Json.obj [("sys_id", Json.str r.sys_id), ("number", Json.str r.number)]

/-- Oracle world of the forward handler: client responses and the
current clock. -/
structure ForwardWorld where
  findIncidentByIncidentIOId : String → Except String (Option SNRecord)
  getIncident : String → Except String Json
  createIncident : List (String × Json) → Except String SNRecord
  updateIncident : String → List (String × Json) → Except String SNRecord
  checkWorkNoteExists : String → Json → Bool
  addServiceNowLink : String → SNRecord → Except String Unit
  now : Nat

/-- Forward configuration: feature toggles plus the mapping
configuration handed to the field mapper. -/
structure ForwardConfig where
  features : FeaturesConfig
  mappings : MappingsConfig

/-- Observable client operations of a forward sync. -/
inductive FwdEffect where
  | findIncident : String → FwdEffect
  | fetchIncident : String → FwdEffect
  | createSN : List (String × Json) → FwdEffect
  | updateSN : String → List (String × Json) → FwdEffect
  | checkNote : String → FwdEffect
  | addLink : String → FwdEffect
deriving Repr

/-- Effect classifiers. -/
def FwdEffect.isFetch : FwdEffect → Bool
  | .findIncident _ => true
  | .fetchIncident _ => true
  | _ => false

/-- Destination-create classifier. -/
def FwdEffect.isCreateSN : FwdEffect → Bool
  | .createSN _ => true
  | _ => false

/-- Destination-write classifier. -/
def FwdEffect.isUpdateSN : FwdEffect → Bool
  | .updateSN _ _ => true
  | _ => false

/-- Outcome of a forward operation: the returned value (`none` for the
JS `undefined`/`null` returns), the handler state, and the effect
trace. -/
structure FwdOutcome where
  result : Except String (Option SNRecord)
  state : HandlerState
  effects : List FwdEffect

/-- JS `Set.delete` on the processing lock. -/
def removeLock (st : HandlerState) (incidentId : String) : HandlerState :=
  { st with processingIncidents := st.processingIncidents.filter (fun x => x != incidentId) }

/-- `IncidentHandler.validateRequiredFields`: throws (here: returns the
message) when a configured required field is missing, `null` or empty
in the mapped data. -/
def ihValidateRequiredFields (mappings : MappingsConfig) (data : List (String × Json))
    (operation : String) : Option String :=
  match mappings.validation_rules with
  | none => none
  | some vr =>
      let requiredFields :=
        if operation = "creation" then vr.required_fields_creation
        else vr.required_fields_update
      match requiredFields with
      | none => none
      | some fields =>
          let missingFields := fields.filter (fun f =>
            match getKey data f with
            | none => true
            | some v => v.isNull || v.isEmptyStr)
          if missingFields.isEmpty then none
          else
            some ("Missing required fields for " ++ operation ++ ": " ++
              String.intercalate ", " missingFields)

/-- Work-note deduplication step of `updateIncident`: when the mapped
dictionary has a truthy `work_notes` and the feature is enabled, the
client is asked whether the note already exists and a duplicate entry
is deleted from the dictionary. -/
def dedupWorkNotes (w : ForwardWorld) (features : FeaturesConfig) (sysId : String)
    (mappedData : List (String × Json)) : List (String × Json) × List FwdEffect :=
  if jsTruthy (getKey mappedData "work_notes") && features.deduplicate_work_notes then
    let wn := (getKey mappedData "work_notes").getD Json.null
    if w.checkWorkNoteExists sysId wn then
      (delKey mappedData "work_notes", [FwdEffect.checkNote sysId])
    else (mappedData, [FwdEffect.checkNote sysId])
  else (mappedData, [])

mutual

/-- `IncidentHandler.createIncident` (fuel-indexed): duplicate
suppression on the processing lock, redirect to update when a
destination record already exists, fetch, map, validate, create, and
the best-effort link write-back; the lock is released on every exit
path. -/
def createIncidentFuel : Nat → ForwardWorld → ForwardConfig → MapperEnv →
    HandlerState → String → FwdOutcome
  | 0, _, _, _, st, _ => ⟨.error "fuel exhausted", st, []⟩
  | fuel + 1, w, cfg, env, st, incidentId =>
      if st.processingIncidents.contains incidentId then
        ⟨.ok none, st, []⟩
      else
        let st1 := { st with processingIncidents := incidentId :: st.processingIncidents }
        match w.findIncidentByIncidentIOId incidentId with
        | .error e => ⟨.error e, removeLock st1 incidentId, [FwdEffect.findIncident incidentId]⟩
        | .ok (some _existing) =>
            let sub := updateIncidentFuel fuel w cfg env st1 incidentId
            ⟨sub.result, removeLock sub.state incidentId,
              FwdEffect.findIncident incidentId :: sub.effects⟩
        | .ok none =>
            match w.getIncident incidentId with
            | .error e =>
                ⟨.error e, removeLock st1 incidentId,
                  [FwdEffect.findIncident incidentId, FwdEffect.fetchIncident incidentId]⟩
            | .ok incidentData =>
                let mappedData := mapForCreation cfg.mappings incidentData env
                match ihValidateRequiredFields cfg.mappings mappedData "creation" with
                | some err =>
                    ⟨.error err, removeLock st1 incidentId,
                      [FwdEffect.findIncident incidentId, FwdEffect.fetchIncident incidentId]⟩
                | none =>
                    match w.createIncident mappedData with
                    | .error e =>
                        ⟨.error e, removeLock st1 incidentId,
                          [FwdEffect.findIncident incidentId,
                            FwdEffect.fetchIncident incidentId,
                            FwdEffect.createSN mappedData]⟩
                    | .ok created =>
                        if cfg.features.add_servicenow_link then
                          ⟨.ok (some created), removeLock st1 incidentId,
                            [FwdEffect.findIncident incidentId,
                              FwdEffect.fetchIncident incidentId,
                              FwdEffect.createSN mappedData,
                              FwdEffect.addLink incidentId]⟩
                        else
                          ⟨.ok (some created), removeLock st1 incidentId,
                            [FwdEffect.findIncident incidentId,
                              FwdEffect.fetchIncident incidentId,
                              FwdEffect.createSN mappedData]⟩

/-- `IncidentHandler.updateIncident` (fuel-indexed): Loop Guard check
(no processing-lock check), redirect to creation when no destination
record exists, fetch, map for update, deduplicate work notes, skip the
write when nothing remains, otherwise update. -/
def updateIncidentFuel : Nat → ForwardWorld → ForwardConfig → MapperEnv →
    HandlerState → String → FwdOutcome
  | 0, _, _, _, st, _ => ⟨.error "fuel exhausted", st, []⟩
  | fuel + 1, w, cfg, env, st, incidentId =>
      let check := shouldSkipForwardSync st incidentId w.now
      if check.1 then ⟨.ok none, check.2, []⟩
      else
        match w.findIncidentByIncidentIOId incidentId with
        | .error e => ⟨.error e, check.2, [FwdEffect.findIncident incidentId]⟩
        | .ok none =>
            let sub := createIncidentFuel fuel w cfg env check.2 incidentId
            ⟨sub.result, sub.state, FwdEffect.findIncident incidentId :: sub.effects⟩
        | .ok (some existingIncident) =>
            match w.getIncident incidentId with
            | .error e =>
                ⟨.error e, check.2,
                  [FwdEffect.findIncident incidentId, FwdEffect.fetchIncident incidentId]⟩
            | .ok incidentData =>
                let mappedData :=
                  mapForUpdate cfg.mappings incidentData env (some existingIncident.toJson)
                let dedup := dedupWorkNotes w cfg.features existingIncident.sys_id mappedData
                let base := FwdEffect.findIncident incidentId ::
                  FwdEffect.fetchIncident incidentId :: dedup.2
                if dedup.1.isEmpty then
                  ⟨.ok (some existingIncident), check.2, base⟩
                else
                  match w.updateIncident existingIncident.sys_id dedup.1 with
                  | .error e =>
                      ⟨.error e, check.2,
                        base ++ [FwdEffect.updateSN existingIncident.sys_id dedup.1]⟩
                  | .ok updatedIncident =>
                      ⟨.ok (some updatedIncident), check.2,
                        base ++ [FwdEffect.updateSN existingIncident.sys_id dedup.1]⟩

end

/-- Top-level `createIncident` (fuel 2 covers the one possible
redirect against a fixed world). -/
def createIncident (w : ForwardWorld) (cfg : ForwardConfig) (env : MapperEnv)
    (st : HandlerState) (incidentId : String) : FwdOutcome :=
  createIncidentFuel 2 w cfg env st incidentId

/-- Top-level `updateIncident` (fuel 2 covers the one possible
redirect against a fixed world). -/
def updateIncident (w : ForwardWorld) (cfg : ForwardConfig) (env : MapperEnv)
    (st : HandlerState) (incidentId : String) : FwdOutcome :=
  updateIncidentFuel 2 w cfg env st incidentId

/-! ## Claims about the forward handler -/

/-- World for the C2 scenario: the destination record exists and every
client call succeeds. -/
def c2World : ForwardWorld where
  findIncidentByIncidentIOId := fun _ => .ok (some ⟨"sys9", "INC0009"⟩)
  getIncident := fun _ => .ok (Json.obj [])
  createIncident := fun _ => .ok ⟨"sys9", "INC0009"⟩
  updateIncident := fun _ _ => .ok ⟨"sys9", "INC0009"⟩
  checkWorkNoteExists := fun _ _ => false
  addServiceNowLink := fun _ _ => .ok ()
  now := 0

/-- Configuration with an empty update rule set. -/
def c2Cfg : ForwardConfig :=
  { features := {}, mappings := { incident_updates := some [] } }

/-- C2 counterexample: with "INC-1" in the processing-lock set, a
forward `updateIncident` call for the same id does NOT return
immediately — it performs client fetches — whereas `createIncident` is
suppressed with no effect; so only one of the two forward entry points
consults the lock. -/
theorem c2_counterexample :
    (updateIncident c2World c2Cfg envNone ⟨["INC-1"], []⟩ "INC-1").effects.any
      FwdEffect.isFetch = true ∧
    (createIncident c2World c2Cfg envNone ⟨["INC-1"], []⟩ "INC-1").effects = [] :=
  ⟨rfl, rfl⟩

/-- C2 (amended): only `createIncident` consults and holds the
processing lock — a `createIncident` call for an id already being
processed returns immediately (undefined) with no client operation and
no state change; `updateIncident` performs no lock check: whenever a
destination record exists for the id, its returned value and its
performed client operations are identical for any two processing-lock
sets over the same Loop Guard state. -/
theorem c2_lock_behavior :
    (∀ (w : ForwardWorld) (cfg : ForwardConfig) (env : MapperEnv) (st : HandlerState)
        (id : String), st.processingIncidents.contains id = true →
      createIncident w cfg env st id = ⟨.ok none, st, []⟩) ∧
    (∀ (w : ForwardWorld) (cfg : ForwardConfig) (env : MapperEnv)
        (p₁ p₂ : List String) (r : List (String × Nat)) (id : String) (rec : SNRecord),
      w.findIncidentByIncidentIOId id = .ok (some rec) →
      (updateIncident w cfg env ⟨p₁, r⟩ id).result =
        (updateIncident w cfg env ⟨p₂, r⟩ id).result ∧
      (updateIncident w cfg env ⟨p₁, r⟩ id).effects =
        (updateIncident w cfg env ⟨p₂, r⟩ id).effects) := by
  constructor
  · intro w cfg env st id h
    rw [createIncident, show (2 : Nat) = 1 + 1 from rfl]
    simp only [createIncidentFuel, h, if_true]
  · intro w cfg env p₁ p₂ r id rec hfind
    rw [updateIncident, updateIncident, show (2 : Nat) = 1 + 1 from rfl]
    simp only [updateIncidentFuel, shouldSkipForwardSync]
    cases hk : getKey r id with
    | none =>
        simp only [hk, hfind]
        rcases hg : w.getIncident id with e | data
        · simp [hg]
        · simp only [hg]
          by_cases hd : (dedupWorkNotes w cfg.features rec.sys_id
              (mapForUpdate cfg.mappings data env (some rec.toJson))).1.isEmpty
          · simp [hd]
          · simp only [hd]
            rcases hu : w.updateIncident rec.sys_id (dedupWorkNotes w cfg.features
                rec.sys_id (mapForUpdate cfg.mappings data env (some rec.toJson))).1
              with e | u
            · simp [hu]
            · simp [hu]
    | some t =>
        simp only [hk]
        by_cases hlt : ((w.now : Int) - (t : Int) < cooldownPeriodMs)
        · simp [hlt]
        · simp only [hlt, if_neg, not_false_eq_true, if_false]
          simp only [hfind]
          rcases hg : w.getIncident id with e | data
          · simp [hg]
          · simp only [hg]
            by_cases hd : (dedupWorkNotes w cfg.features rec.sys_id
                (mapForUpdate cfg.mappings data env (some rec.toJson))).1.isEmpty
            · simp [hd]
            · simp only [hd]
              rcases hu : w.updateIncident rec.sys_id (dedupWorkNotes w cfg.features
                  rec.sys_id (mapForUpdate cfg.mappings data env (some rec.toJson))).1
                with e | u
              · simp [hu]
              · simp [hu]

/-- C2 witness: the suppressed duplicate `createIncident` at a concrete
locked state, and the lock-independence of `updateIncident` between a
locked and an unlocked state. -/
theorem c2_lock_behavior_witness :
    createIncident c2World c2Cfg envNone ⟨["INC-1"], []⟩ "INC-1" =
      ⟨.ok none, ⟨["INC-1"], []⟩, []⟩ ∧
    (updateIncident c2World c2Cfg envNone ⟨["INC-1"], []⟩ "INC-1").effects =
      (updateIncident c2World c2Cfg envNone ⟨[], []⟩ "INC-1").effects := by
  refine ⟨c2_lock_behavior.1 c2World c2Cfg envNone ⟨["INC-1"], []⟩ "INC-1" rfl, ?_⟩
  exact (c2_lock_behavior.2 c2World c2Cfg envNone ["INC-1"] [] [] "INC-1"
    ⟨"sys9", "INC0009"⟩ rfl).2

/-- C7: a creation whose mapped data misses a configured
required-for-creation field fails with the descriptive error and never
reaches the destination create; after a successful create, a failing
best-effort cross-reference link write-back does not fail the overall
creation. -/
theorem c7_create_error_handling :
    (∀ (w : ForwardWorld) (cfg : ForwardConfig) (env : MapperEnv) (st : HandlerState)
        (id : String) (data : Json) (err : String),
      st.processingIncidents.contains id = false →
      w.findIncidentByIncidentIOId id = .ok none →
      w.getIncident id = .ok data →
      ihValidateRequiredFields cfg.mappings (mapForCreation cfg.mappings data env)
        "creation" = some err →
      (createIncident w cfg env st id).result = .error err ∧
      (createIncident w cfg env st id).effects.any FwdEffect.isCreateSN = false) ∧
    (∀ (w : ForwardWorld) (cfg : ForwardConfig) (env : MapperEnv) (st : HandlerState)
        (id : String) (data : Json) (rec : SNRecord) (e : String),
      st.processingIncidents.contains id = false →
      w.findIncidentByIncidentIOId id = .ok none →
      w.getIncident id = .ok data →
      ihValidateRequiredFields cfg.mappings (mapForCreation cfg.mappings data env)
        "creation" = none →
      w.createIncident (mapForCreation cfg.mappings data env) = .ok rec →
      cfg.features.add_servicenow_link = true →
      w.addServiceNowLink id rec = .error e →
      (createIncident w cfg env st id).result = .ok (some rec)) := by
  constructor
  · intro w cfg env st id data err h hfind hfetch hval
    rw [createIncident, show (2 : Nat) = 1 + 1 from rfl]
    simp only [createIncidentFuel, h, hfind, hfetch, hval]
    constructor
    · simp
    · simp [FwdEffect.isCreateSN]
  · intro w cfg env st id data rec e h hfind hfetch hval hcreate hflag hlink
    rw [createIncident, show (2 : Nat) = 1 + 1 from rfl]
    simp only [createIncidentFuel, h, hfind, hfetch, hval, hcreate, hflag]
    simp

/-- Creation configuration whose one required field cannot be mapped
(empty creation rule set, required `short_description`). -/
def c7CfgA : ForwardConfig :=
  { features := {}
    mappings :=
      { incident_creation := some []
        validation_rules := some { required_fields_creation := some ["short_description"] } } }

/-- World for the failing-validation creation. -/
def c7WorldA : ForwardWorld where
  findIncidentByIncidentIOId := fun _ => .ok none
  getIncident := fun _ => .ok (Json.obj [])
  createIncident := fun _ => .ok ⟨"sysA", "INC1"⟩
  updateIncident := fun _ _ => .ok ⟨"sysA", "INC1"⟩
  checkWorkNoteExists := fun _ _ => false
  addServiceNowLink := fun _ _ => .ok ()
  now := 0

/-- Creation configuration mapping one text field, with the link
write-back enabled. -/
def c7CfgB : ForwardConfig :=
  { features := { add_servicenow_link := true }
    mappings :=
      { incident_creation := some
          [("short_description", { type := "text", source := some "incident.name" })] } }

/-- World for the link-write-back failure: the link write rejects. -/
def c7WorldB : ForwardWorld where
  findIncidentByIncidentIOId := fun _ => .ok none
  getIncident := fun _ => .ok (Json.obj [("incident", Json.obj [("name", Json.str "T")])])
  createIncident := fun _ => .ok ⟨"sysB", "INC2"⟩
  updateIncident := fun _ _ => .ok ⟨"sysB", "INC2"⟩
  checkWorkNoteExists := fun _ _ => false
  addServiceNowLink := fun _ _ => .error "network error"
  now := 0

/-- C7 witness: the concrete failing-validation creation aborts with the
descriptive message and performs no create; the concrete creation whose
link write-back rejects still succeeds. -/
theorem c7_create_error_handling_witness :
    (createIncident c7WorldA c7CfgA envNone ⟨[], []⟩ "INC-7").result =
      .error "Missing required fields for creation: short_description" ∧
    (createIncident c7WorldA c7CfgA envNone ⟨[], []⟩ "INC-7").effects.any
      FwdEffect.isCreateSN = false ∧
    (createIncident c7WorldB c7CfgB envNone ⟨[], []⟩ "INC-8").result =
      .ok (some ⟨"sysB", "INC2"⟩) := by
  have hA := c7_create_error_handling.1 c7WorldA c7CfgA envNone ⟨[], []⟩ "INC-7"
    (Json.obj []) "Missing required fields for creation: short_description" rfl rfl rfl rfl
  have hB := c7_create_error_handling.2 c7WorldB c7CfgB envNone ⟨[], []⟩ "INC-8"
    (Json.obj [("incident", Json.obj [("name", Json.str "T")])]) ⟨"sysB", "INC2"⟩
    "network error" rfl rfl rfl rfl rfl rfl rfl
  exact ⟨hA.1, hA.2, hB⟩

/-- The dedup step never performs a destination write itself. -/
theorem dedupWorkNotes_no_write (w : ForwardWorld) (features : FeaturesConfig)
    (sysId : String) (md : List (String × Json)) :
    (dedupWorkNotes w features sysId md).2.any FwdEffect.isUpdateSN = false := by
  rw [dedupWorkNotes]
  by_cases hc : (jsTruthy (getKey md "work_notes") && features.deduplicate_work_notes) = true
  · simp only [hc, if_true]
    by_cases hd : w.checkWorkNoteExists sysId ((getKey md "work_notes").getD Json.null) = true
    · simp [hd, FwdEffect.isUpdateSN]
    · simp [hd, FwdEffect.isUpdateSN]
  · simp [hc, FwdEffect.isUpdateSN]

/-- Update rule for the ServiceNow work-notes comment field. -/
def c3RuleWorkNotes : MappingRule :=
  { type := "text", source := some "incident_update.message" }

/-- Update rule translating the incident.io status to the ServiceNow
state code. -/
def c3RuleState : MappingRule :=
  { type := "choice_mapping"
    source := some "incident.status"
    mappings := [("investigating", Json.str "2"), ("monitoring", Json.str "3"),
                 ("resolved", Json.str "6"), ("closed", Json.str "7")] }

/-- Update configuration with the work-notes rule and one state rule,
deduplication enabled. -/
def c3Cfg : ForwardConfig :=
  { features := { deduplicate_work_notes := true }
    mappings :=
      { incident_updates :=
          some [("work_notes", c3RuleWorkNotes), ("state", c3RuleState)] } }

/-- The unchanged fetched incident snapshot. -/
def c3Data : Json :=
  Json.obj [("incident", Json.obj [("status", Json.str "investigating")])]

/-- World after the first update completed: the destination record
exists, the fetched source record is unchanged, and every work note is
already present in the destination. -/
def c3World : ForwardWorld where
  findIncidentByIncidentIOId := fun _ => .ok (some ⟨"sysC", "INC3"⟩)
  getIncident := fun _ => .ok c3Data
  createIncident := fun _ => .ok ⟨"sysC", "INC3"⟩
  updateIncident := fun _ _ => .ok ⟨"sysC", "INC3"⟩
  checkWorkNoteExists := fun _ _ => true
  addServiceNowLink := fun _ _ => .ok ()
  now := 0

/-- C3 counterexample: with the source unchanged since the previous
update (and its work note already synced), the repeat `updateIncident`
still produces the non-empty mapped dictionary `{state: "2"}` — the
state rule is recomputed from the unchanged snapshot — and performs a
destination write, so the second invocation is not the claimed
empty-dictionary no-op. -/
theorem c3_counterexample :
    mapForUpdate c3Cfg.mappings c3Data envNone
      (some (SNRecord.toJson ⟨"sysC", "INC3"⟩)) = [("state", Json.str "2")] ∧
    (updateIncident c3World c3Cfg envNone ⟨[], []⟩ "INC-3").effects.any
      FwdEffect.isUpdateSN = true :=
  ⟨rfl, rfl⟩

/-- C3 (amended): a repeat forward update recomputes every mapped field
from the source snapshot; only the work-notes entry is deduplicated — a
truthy `work_notes` already present verbatim in the destination is
deleted from the dictionary (when the feature is enabled) — and the
destination write is skipped (returning the existing record) exactly
when the dictionary is empty after that deduplication, which happens
only when `work_notes` was its sole entry; otherwise a write is
performed. -/
theorem c3_update_write_behavior (w : ForwardWorld) (cfg : ForwardConfig)
    (env : MapperEnv) (st : HandlerState) (id : String) (rec : SNRecord) (data : Json)
    (hskip : (shouldSkipForwardSync st id w.now).1 = false)
    (hfind : w.findIncidentByIncidentIOId id = .ok (some rec))
    (hfetch : w.getIncident id = .ok data) :
    (jsTruthy (getKey (mapForUpdate cfg.mappings data env (some rec.toJson))
        "work_notes") = true →
      cfg.features.deduplicate_work_notes = true →
      w.checkWorkNoteExists rec.sys_id
        ((getKey (mapForUpdate cfg.mappings data env (some rec.toJson))
          "work_notes").getD Json.null) = true →
      (dedupWorkNotes w cfg.features rec.sys_id
          (mapForUpdate cfg.mappings data env (some rec.toJson))).1 =
        delKey (mapForUpdate cfg.mappings data env (some rec.toJson)) "work_notes") ∧
    ((dedupWorkNotes w cfg.features rec.sys_id
        (mapForUpdate cfg.mappings data env (some rec.toJson))).1 = [] →
      (updateIncident w cfg env st id).result = .ok (some rec) ∧
      (updateIncident w cfg env st id).effects.any FwdEffect.isUpdateSN = false) ∧
    ((dedupWorkNotes w cfg.features rec.sys_id
        (mapForUpdate cfg.mappings data env (some rec.toJson))).1 ≠ [] →
      (updateIncident w cfg env st id).effects.any FwdEffect.isUpdateSN = true) := by
  refine ⟨fun hwn hded hdup => ?_, fun hdd => ?_, fun hdd => ?_⟩
  · rw [dedupWorkNotes]
    simp only [hwn, hded, Bool.and_self, if_true, hdup]
  · rw [updateIncident, show (2 : Nat) = 1 + 1 from rfl]
    simp only [updateIncidentFuel, hskip, hfind, hfetch, hdd]
    constructor
    · simp
    · simp [FwdEffect.isUpdateSN, dedupWorkNotes_no_write]
  · rw [updateIncident, show (2 : Nat) = 1 + 1 from rfl]
    simp only [updateIncidentFuel, hskip, hfind, hfetch]
    rcases hdl : (dedupWorkNotes w cfg.features rec.sys_id
        (mapForUpdate cfg.mappings data env (some rec.toJson))).1 with _ | ⟨hd, tl⟩
    · exact absurd hdl hdd
    · simp only [hdl, List.isEmpty_cons]
      rcases hu : w.updateIncident rec.sys_id (hd :: tl) with e | u
      · simp [hu, FwdEffect.isUpdateSN]
      · simp [hu, FwdEffect.isUpdateSN]

/-- C3 witness: in the concrete unchanged-source scenario the
deduplicated dictionary is non-empty (it still holds the state field),
so the repeat update performs a write. -/
theorem c3_update_write_behavior_witness :
    (updateIncident c3World c3Cfg envNone ⟨[], []⟩ "INC-3").effects.any
      FwdEffect.isUpdateSN = true := by
  have h := (c3_update_write_behavior c3World c3Cfg envNone ⟨[], []⟩ "INC-3"
    ⟨"sysC", "INC3"⟩ c3Data rfl rfl rfl).2.2
  apply h
  rw [show (dedupWorkNotes c3World c3Cfg.features "sysC"
    (mapForUpdate c3Cfg.mappings c3Data envNone
      (some (SNRecord.toJson ⟨"sysC", "INC3"⟩)))).1 = [("state", Json.str "2")] from rfl]
  exact List.cons_ne_nil _ _

end SyncBridge
